import Mathlib

/-!
Verification development for a content-catalog CRUD server (Express +
Drizzle + Zod).  The server code consists of a schema module (pgTable
declarations and drizzle-zod insert schemas), a storage class
(`DatabaseStorage`) issuing one SQL statement per operation, and a route
module mapping HTTP verbs to storage calls.

The embedding models:
  * JSON request bodies as an inductive `JsonVal`;
  * the relational store as lists of typed rows inside a `DB` state,
    together with sequence counters for the `serial` primary keys;
  * each storage method as a pure function on `DB` (SQL `ORDER BY` is
    modelled by `List.mergeSort`, `LIMIT n` by `List.take n`);
  * each zod insert schema as an executable parser from `JsonVal` to a
    typed insert record or a list of field-level issues;
  * each route handler as a function from `DB` and a request to an
    updated `DB` and a `Resp` (the HTTP response).

JavaScript runtime primitives that the handlers rely on (`parseInt`,
`new Date(string)`) are modelled explicitly below; `NaN` (for
identifiers) and `Invalid Date` (for time values) are both represented
by `Option.none`.
-/

/-- A JSON value, as delivered by the Express JSON body parser. -/
inductive JsonVal where
  | null : JsonVal
  | bool : Bool → JsonVal
  | num : Int → JsonVal
  | str : String → JsonVal
  | arr : List JsonVal → JsonVal
  | obj : List (String × JsonVal) → JsonVal

/-- A zod field-level validation issue: a path into the object and a
message, as serialised into the `details` array of a 400 response. -/
structure Issue where
  path : List String
  message : String
deriving DecidableEq, Repr

/-- Models ECMAScript `parseInt(s)` (radix 10): skip leading whitespace,
read an optional sign and then leading decimal digits; the result is
`none` when no digit is found (JavaScript `NaN`). -/
def jsParseInt (s : String) : Option Int :=
  let cs := s.toList.dropWhile (fun c => c == ' ' || c == '\t' || c == '\n' || c == '\r')
  let signAndRest : Int × List Char :=
    match cs with
    | '-' :: r => (-1, r)
    | '+' :: r => (1, r)
    | r => (1, r)
  let ds := signAndRest.2.takeWhile Char.isDigit
  if ds.isEmpty then none
  else some (signAndRest.1 * (ds.foldl (fun acc c => acc * 10 + (c.toNat - 48)) 0 : Nat))

/-- Split a character list on the dash character (used by the ISO
calendar-date parser below). -/
def splitDash (cs : List Char) : List (List Char) :=
  cs.foldr
    (fun c acc =>
      match acc with
      | g :: gs => if c == '-' then [] :: g :: gs else (c :: g) :: gs
      | [] => [[c]])
    [[]]

/-- Reads a non-empty list of decimal digits as a number, `none` on any
non-digit or on the empty list. -/
def digitsToNat (cs : List Char) : Option Nat :=
  cs.foldl
    (fun acc c =>
      match acc with
      | none => none
      | some n => if c.isDigit then some (n * 10 + (c.toNat - 48)) else none)
    (if cs.isEmpty then none else some 0)

/-- Models ECMAScript `new Date(s)` for a string argument, restricted to
the ISO calendar-date format `YYYY-MM-DD` actually exchanged by this
application; every other string yields `none`, the model of JavaScript
`Invalid Date`.  The returned `Int` is an abstract, strictly monotone
encoding of the point in time. -/
def jsDateParse (s : String) : Option Int :=
  match splitDash s.toList with
  | [y, m, d] =>
    match digitsToNat y, digitsToNat m, digitsToNat d with
    | some yn, some mn, some dn =>
      if y.length == 4 && m.length == 2 && d.length == 2
          && 1 ≤ mn && mn ≤ 12 && 1 ≤ dn && dn ≤ 31 then
        some ((yn * 10000 + mn * 100 + dn : Nat) : Int)
      else none
    | _, _, _ => none
  | _ => none

/-- Models ECMAScript `new Date(x)` applied to an arbitrary (possibly
absent) JSON field: strings are parsed, numbers are taken as time
values, `null` coerces to `0` (the epoch), everything else — including
an absent field, i.e. `undefined` — yields an invalid time value. -/
def jsNewDate (v : Option JsonVal) : Option Int :=
  match v with
  | some (.str s) => jsDateParse s
  | some (.num n) => some n
  | some .null => some 0
  | some (.bool b) => some (if b then 1 else 0)
  | _ => none

/-! ### Row types (from the pgTable declarations in shared/schema)

Nullable columns are `Option`-valued; `notNull` columns are plain.
`timestamp` columns carry the abstract `Int` time encoding. -/

/-- A row of the `content` table. -/
structure Content where
  id : Int
  title : String
  type : String
  genres : List String
  duration : Option String
  rating : String
  status : String
  views : Option Int
  description : Option String
  thumbnailUrl : Option String
  videoUrl : Option String
  trailerUrl : Option String
  releaseYear : Option Int
  director : Option String
  writer : Option String
  cast : Option (List String)
  tags : Option (List String)
  episodes : Option Int
  createdAt : Int
  updatedAt : Int
deriving DecidableEq, Repr

/-- A row of the `upcoming_content` table. -/
structure UpcomingContent where
  id : Int
  title : String
  type : String
  genres : List String
  episodes : Option Int
  releaseDate : Int
  description : String
  thumbnailUrl : Option String
  trailerUrl : Option String
  sectionOrder : Option Int
  createdAt : Int
deriving DecidableEq, Repr

/-- A row of the `analytics` table.  The open-ended `json` metadata
column is kept as a raw `JsonVal`. -/
structure AnalyticsEvent where
  id : Int
  contentId : Option Int
  eventType : String
  userId : Option Int
  timestamp : Int
  metadata : Option JsonVal

/-- The persistent store: one list of rows per relation used by the
claims, plus the next value of each `serial` primary-key sequence. -/
structure DB where
  contents : List Content
  upcoming : List UpcomingContent
  events : List AnalyticsEvent
  contentSeq : Int
  upcomingSeq : Int
  analyticsSeq : Int

/-- SQL equality of a numeric identifier argument against an `id`
column value.  The argument type is `Option Int` only so the storage
functions can be stated over the route layer's `parseInt` output; a
`NaN` identifier (`none`) never reaches a row comparison in the store —
binding it to the integer column raises instead, see
`getContentByIdResult` — so the `none` case here is a vacuous `false`
that merely totalises the functions, and the claims about them concern
numeric identifiers. -/
def idMatches (i : Option Int) (n : Int) : Bool :=
  match i with
  | some m => m == n
  | none => false

/-! ### Storage layer (DatabaseStorage) — content methods -/

/-- Descending order on `createdAt` (`orderBy(desc(content.createdAt))`). -/
def createdDescLe (a b : Content) : Bool :=
  decide (b.createdAt ≤ a.createdAt)

/-- `getAllContent`: all rows, newest first. -/
def getAllContent (db : DB) : List Content :=
  db.contents.mergeSort createdDescLe

/-- `getContentById`: first row matching the identifier, or `none`. -/
def getContentById (db : DB) (i : Option Int) : Option Content :=
  db.contents.find? (fun c => idMatches i c.id)

/-- `getPublishedContent`: rows with `status = "published"`, newest first. -/
def getPublishedContent (db : DB) : List Content :=
  (db.contents.filter (fun c => c.status == "published")).mergeSort createdDescLe

/-- The typed value accepted by `insertContentSchema`
(`createInsertSchema(content).omit({id, createdAt, updatedAt, views})`).
Columns with a database default (`status`) and nullable columns are
optional; `none` means the field is absent or `null` and the insert
falls back to the column default / `NULL`. -/
structure InsertContent where
  title : String
  type : String
  genres : List String
  duration : Option String
  rating : String
  status : Option String
  description : Option String
  thumbnailUrl : Option String
  videoUrl : Option String
  trailerUrl : Option String
  releaseYear : Option Int
  director : Option String
  writer : Option String
  cast : Option (List String)
  tags : Option (List String)
  episodes : Option Int
deriving DecidableEq, Repr

/-- The row materialised by `insert(content).values(ins).returning()`:
the server assigns `id` from the sequence, `views` and `status` fall
back to their column defaults, and both timestamps are set to the
insertion time. -/
def contentRowOf (newId : Int) (ins : InsertContent) (now : Int) : Content :=
  { id := newId
    title := ins.title
    type := ins.type
    genres := ins.genres
    duration := ins.duration
    rating := ins.rating
    status := ins.status.getD "draft"
    views := some 0
    description := ins.description
    thumbnailUrl := ins.thumbnailUrl
    videoUrl := ins.videoUrl
    trailerUrl := ins.trailerUrl
    releaseYear := ins.releaseYear
    director := ins.director
    writer := ins.writer
    cast := ins.cast
    tags := ins.tags
    episodes := ins.episodes
    createdAt := now
    updatedAt := now }

/-- `createContent`: insert one row, return the stored record. -/
def createContent (db : DB) (ins : InsertContent) (now : Int) : DB × Content :=
  let row := contentRowOf db.contentSeq ins now
  ({ db with contents := db.contents ++ [row], contentSeq := db.contentSeq + 1 }, row)

/-- A partial update accepted by `insertContentSchema.partial()`: every
insert field optional.  For a nullable column the inner `Option`
distinguishes an explicit `null` from a supplied value. -/
structure ContentPatch where
  title : Option String := none
  type : Option String := none
  genres : Option (List String) := none
  duration : Option (Option String) := none
  rating : Option String := none
  status : Option String := none
  description : Option (Option String) := none
  thumbnailUrl : Option (Option String) := none
  videoUrl : Option (Option String) := none
  trailerUrl : Option (Option String) := none
  releaseYear : Option (Option Int) := none
  director : Option (Option String) := none
  writer : Option (Option String) := none
  cast : Option (Option (List String)) := none
  tags : Option (Option (List String)) := none
  episodes : Option (Option Int) := none
deriving DecidableEq, Repr

/-- The SET clause of `updateContent`:
`.set({ ...patch, updatedAt: new Date() })` — supplied fields override
the row, `updatedAt` is always refreshed, everything else is kept. -/
def applyPatch (now : Int) (p : ContentPatch) (c : Content) : Content :=
  { id := c.id
    title := p.title.getD c.title
    type := p.type.getD c.type
    genres := p.genres.getD c.genres
    duration := p.duration.getD c.duration
    rating := p.rating.getD c.rating
    status := p.status.getD c.status
    views := c.views
    description := p.description.getD c.description
    thumbnailUrl := p.thumbnailUrl.getD c.thumbnailUrl
    videoUrl := p.videoUrl.getD c.videoUrl
    trailerUrl := p.trailerUrl.getD c.trailerUrl
    releaseYear := p.releaseYear.getD c.releaseYear
    director := p.director.getD c.director
    writer := p.writer.getD c.writer
    cast := p.cast.getD c.cast
    tags := p.tags.getD c.tags
    episodes := p.episodes.getD c.episodes
    createdAt := c.createdAt
    updatedAt := now }

/-- `updateContent`: `UPDATE … SET … WHERE id = i RETURNING *`, then the
handler destructures the first returned row (`undefined`, i.e. `none`,
when no row matched). -/
def updateContent (db : DB) (i : Option Int) (p : ContentPatch) (now : Int) :
    DB × Option Content :=
  let updated := db.contents.map (fun c => if idMatches i c.id then applyPatch now p c else c)
  ({ db with contents := updated },
   (updated.filter (fun c => idMatches i c.id)).head?)

/-- `deleteContent`: `DELETE … WHERE id = i`; the result is
`rowCount > 0`. -/
def deleteContent (db : DB) (i : Option Int) : DB × Bool :=
  let kept := db.contents.filter (fun c => !(idMatches i c.id))
  ({ db with contents := kept }, decide (kept.length < db.contents.length))

/-! ### Storage layer — upcoming-content methods -/

/-- Ascending order on the display-ordering key
(`orderBy(upcomingContent.sectionOrder)`; SQL ASC places NULLs last). -/
def sectionOrderLe (a b : UpcomingContent) : Bool :=
  match a.sectionOrder, b.sectionOrder with
  | none, none => true
  | none, some _ => false
  | some _, none => true
  | some x, some y => decide (x ≤ y)

/-- `getAllUpcomingContent`: all rows ordered by `sectionOrder`. -/
def getAllUpcomingContent (db : DB) : List UpcomingContent :=
  db.upcoming.mergeSort sectionOrderLe

/-- `getUpcomingContentById`. -/
def getUpcomingContentById (db : DB) (i : Option Int) : Option UpcomingContent :=
  db.upcoming.find? (fun u => idMatches i u.id)

/-- A partial update accepted by `insertUpcomingContentSchema.partial()`.
`releaseDate` is the schema's `z.string().transform((str) => new Date(str))`
field: when supplied it holds the result of `new Date` on the given
string, where the inner `none` is `Invalid Date` (an unparseable
string). -/
structure UpcomingPatch where
  title : Option String := none
  type : Option String := none
  genres : Option (List String) := none
  episodes : Option (Option Int) := none
  releaseDate : Option (Option Int) := none
  description : Option String := none
  thumbnailUrl : Option (Option String) := none
  trailerUrl : Option (Option String) := none
  sectionOrder : Option (Option Int) := none
deriving DecidableEq, Repr

/-- The SET clause of `updateUpcomingContent`: `.set(patch)` — supplied
fields override the row and nothing else changes (in particular no
timestamp is refreshed; the row's only timestamp column is
`createdAt`).  The `releaseDate := some none` case (an invalid time
value) never reaches this function: the store rejects it, see
`updateUpcomingContent`. -/
def applyUpcomingPatch (p : UpcomingPatch) (u : UpcomingContent) : UpcomingContent :=
  { id := u.id
    title := p.title.getD u.title
    type := p.type.getD u.type
    genres := p.genres.getD u.genres
    episodes := p.episodes.getD u.episodes
    releaseDate := match p.releaseDate with
      | some (some t) => t
      | _ => u.releaseDate
    description := p.description.getD u.description
    thumbnailUrl := p.thumbnailUrl.getD u.thumbnailUrl
    trailerUrl := p.trailerUrl.getD u.trailerUrl
    sectionOrder := p.sectionOrder.getD u.sectionOrder
    createdAt := u.createdAt }

/-- `updateUpcomingContent`: `UPDATE … SET patch WHERE id = i
RETURNING *`.  Modelled from the spec: the store itself (not code under
src/) rejects an invalid time value bound to the `notNull`
`releaseDate` column — per §4.2 "any unexpected store failure
(connectivity, constraint violation) propagates as an opaque data-layer
error"; the error is the thrown exception the route handler catches. -/
def updateUpcomingContent (db : DB) (i : Option Int) (p : UpcomingPatch) :
    Except String (DB × Option UpcomingContent) :=
  if p.releaseDate == some none then
    .error "invalid input for type timestamp"
  else
    let updated := db.upcoming.map (fun u => if idMatches i u.id then applyUpcomingPatch p u else u)
    .ok ({ db with upcoming := updated },
         (updated.filter (fun u => idMatches i u.id)).head?)

/-- `deleteUpcomingContent`: `DELETE … WHERE id = i`; result is
`rowCount > 0`. -/
def deleteUpcomingContent (db : DB) (i : Option Int) : DB × Bool :=
  let kept := db.upcoming.filter (fun u => !(idMatches i u.id))
  ({ db with upcoming := kept }, decide (kept.length < db.upcoming.length))

/-! ### Storage layer — analytics methods -/

/-- The typed value accepted by `insertAnalyticsSchema`
(`createInsertSchema(analytics).omit({id, timestamp})`). -/
structure InsertAnalytics where
  contentId : Option Int
  eventType : String
  userId : Option Int
  metadata : Option JsonVal

/-- `createAnalyticsEvent`: insert one immutable event row; the server
assigns `id` and the `defaultNow()` timestamp. -/
def createAnalyticsEvent (db : DB) (e : InsertAnalytics) (now : Int) :
    DB × AnalyticsEvent :=
  let row : AnalyticsEvent :=
    { id := db.analyticsSeq
      contentId := e.contentId
      eventType := e.eventType
      userId := e.userId
      timestamp := now
      metadata := e.metadata }
  ({ db with events := db.events ++ [row], analyticsSeq := db.analyticsSeq + 1 }, row)

/-- Descending order on the `views` counter
(`orderBy(desc(content.views))`; SQL DESC places NULLs first). -/
def viewsDescLe (a b : Content) : Bool :=
  match a.views, b.views with
  | none, _ => true
  | some _, none => false
  | some x, some y => decide (y ≤ x)

/-- Descending order on the event timestamp
(`orderBy(desc(analytics.timestamp))`). -/
def tsDescLe (a b : AnalyticsEvent) : Bool :=
  decide (b.timestamp ≤ a.timestamp)

/-- The aggregate returned by `getAnalytics`. -/
structure AnalyticsAggregate where
  totalViews : Nat
  totalContent : Nat
  popularContent : List Content
  recentViews : List AnalyticsEvent

/-- `getAnalytics`: count of `view` events, count of content rows, the
10 content rows with highest view counters, the 50 most recent `view`
events. -/
def getAnalytics (db : DB) : AnalyticsAggregate :=
  { totalViews := db.events.countP (fun e => e.eventType == "view")
    totalContent := db.contents.length
    popularContent := (db.contents.mergeSort viewsDescLe).take 10
    recentViews :=
      ((db.events.filter (fun e => e.eventType == "view")).mergeSort tsDescLe).take 50 }

/-! ### Zod insert schemas (shared/schema), as executable parsers -/

/-- Property lookup on a JSON object (JavaScript object keys are
unique; the first binding wins). -/
def lookupField (o : List (String × JsonVal)) (k : String) : Option JsonVal :=
  (o.find? (fun p => p.1 == k)).map Prod.snd

/-- Is this JSON value a string? -/
def isStrVal : JsonVal → Bool
  | .str _ => true
  | _ => false

/-- The string content of a JSON value, when it is one. -/
def strVal : JsonVal → Option String
  | .str s => some s
  | _ => none

/-- One field of a drizzle-zod insert schema.  The variants record how
`createInsertSchema` maps the column: `reqStr`/`reqStrArr` for a
`notNull` column without default, `optStr` for a `notNull` column with
a default (optional, not nullable), `nullStr`/`nullStrArr`/`nullInt`
for nullable columns (nullable and optional), `strDate` for the
`.extend` override `z.string().transform((str) => new Date(str))`, and
`anyJson` for a `json` column. -/
inductive ZField where
  | reqStr (name : String)
  | optStr (name : String)
  | nullStr (name : String)
  | reqStrArr (name : String)
  | nullStrArr (name : String)
  | nullInt (name : String)
  | strDate (name : String)
  | anyJson (name : String)

/-- The key a schema field validates. -/
def zfieldName : ZField → String
  | .reqStr k => k
  | .optStr k => k
  | .nullStr k => k
  | .reqStrArr k => k
  | .nullStrArr k => k
  | .nullInt k => k
  | .strDate k => k
  | .anyJson k => k

/-- The zod issues one schema field contributes on the given object.
Note the `strDate` case: a present string — parseable as a date or
not — passes, because `z.string().transform` validates only
string-ness and a `transform` never fails. -/
def zcheck (o : List (String × JsonVal)) : ZField → List Issue
  | .reqStr k =>
    match lookupField o k with
    | none => [⟨[k], "Required"⟩]
    | some (.str _) => []
    | some _ => [⟨[k], "Expected string"⟩]
  | .optStr k =>
    match lookupField o k with
    | none => []
    | some (.str _) => []
    | some _ => [⟨[k], "Expected string"⟩]
  | .nullStr k =>
    match lookupField o k with
    | none => []
    | some .null => []
    | some (.str _) => []
    | some _ => [⟨[k], "Expected string"⟩]
  | .reqStrArr k =>
    match lookupField o k with
    | none => [⟨[k], "Required"⟩]
    | some (.arr xs) => if xs.all isStrVal then [] else [⟨[k], "Expected string"⟩]
    | some _ => [⟨[k], "Expected array"⟩]
  | .nullStrArr k =>
    match lookupField o k with
    | none => []
    | some .null => []
    | some (.arr xs) => if xs.all isStrVal then [] else [⟨[k], "Expected string"⟩]
    | some _ => [⟨[k], "Expected array"⟩]
  | .nullInt k =>
    match lookupField o k with
    | none => []
    | some .null => []
    | some (.num _) => []
    | some _ => [⟨[k], "Expected number"⟩]
  | .strDate k =>
    match lookupField o k with
    | none => [⟨[k], "Required"⟩]
    | some (.str _) => []
    | some _ => [⟨[k], "Expected string"⟩]
  | .anyJson _ => []

/-- The same field check under `.partial()`: an absent field is always
accepted, a present field is checked exactly as before. -/
def zcheckOpt (o : List (String × JsonVal)) (f : ZField) : List Issue :=
  match lookupField o (zfieldName f) with
  | none => []
  | some _ => zcheck o f

/-- `insertContentSchema`: the `content` columns minus
`{id, createdAt, updatedAt, views}`. -/
def insertContentFields : List ZField :=
  [.reqStr "title", .reqStr "type", .reqStrArr "genres", .nullStr "duration",
   .reqStr "rating", .optStr "status", .nullStr "description",
   .nullStr "thumbnailUrl", .nullStr "videoUrl", .nullStr "trailerUrl",
   .nullInt "releaseYear", .nullStr "director", .nullStr "writer",
   .nullStrArr "cast", .nullStrArr "tags", .nullInt "episodes"]

/-- `insertUpcomingContentSchema`: the `upcoming_content` columns minus
`{id, createdAt}`, with `releaseDate` overridden by
`z.string().transform((str) => new Date(str))`. -/
def insertUpcomingFields : List ZField :=
  [.reqStr "title", .reqStr "type", .reqStrArr "genres", .nullInt "episodes",
   .strDate "releaseDate", .reqStr "description", .nullStr "thumbnailUrl",
   .nullStr "trailerUrl", .nullInt "sectionOrder"]

/-- `insertAnalyticsSchema`: the `analytics` columns minus
`{id, timestamp}`. -/
def insertAnalyticsFields : List ZField :=
  [.nullInt "contentId", .reqStr "eventType", .nullInt "userId", .anyJson "metadata"]

/-! Extractors used once a parse has succeeded. -/

/-- Required string field (defined only when the checks passed). -/
def getStrD (o : List (String × JsonVal)) (k : String) : String :=
  match lookupField o k with
  | some (.str s) => s
  | _ => ""

/-- Optional / nullable string field; `none` covers absent and `null`. -/
def getStrOpt (o : List (String × JsonVal)) (k : String) : Option String :=
  match lookupField o k with
  | some (.str s) => some s
  | _ => none

/-- Required string-array field. -/
def getStrArrD (o : List (String × JsonVal)) (k : String) : List String :=
  match lookupField o k with
  | some (.arr xs) => xs.filterMap strVal
  | _ => []

/-- Nullable string-array field. -/
def getStrArrOpt (o : List (String × JsonVal)) (k : String) : Option (List String) :=
  match lookupField o k with
  | some (.arr xs) => some (xs.filterMap strVal)
  | _ => none

/-- Nullable integer field. -/
def getIntOpt (o : List (String × JsonVal)) (k : String) : Option Int :=
  match lookupField o k with
  | some (.num n) => some n
  | _ => none

/-- `json` column field: any value, `null`/absent becomes SQL `NULL`. -/
def getJsonOpt (o : List (String × JsonVal)) (k : String) : Option JsonVal :=
  match lookupField o k with
  | none => none
  | some .null => none
  | some v => some v

/-- The typed output of a successful `insertContentSchema.parse`;
unknown keys of the payload are stripped (zod objects are non-strict). -/
def insertContentOf (o : List (String × JsonVal)) : InsertContent :=
  { title := getStrD o "title"
    type := getStrD o "type"
    genres := getStrArrD o "genres"
    duration := getStrOpt o "duration"
    rating := getStrD o "rating"
    status := getStrOpt o "status"
    description := getStrOpt o "description"
    thumbnailUrl := getStrOpt o "thumbnailUrl"
    videoUrl := getStrOpt o "videoUrl"
    trailerUrl := getStrOpt o "trailerUrl"
    releaseYear := getIntOpt o "releaseYear"
    director := getStrOpt o "director"
    writer := getStrOpt o "writer"
    cast := getStrArrOpt o "cast"
    tags := getStrArrOpt o "tags"
    episodes := getIntOpt o "episodes" }

/-- `insertContentSchema.parse(body)`: a non-object is rejected at the
root; otherwise all field issues are collected and the parse succeeds
exactly when there are none. -/
def insertContentParse (j : JsonVal) : Except (List Issue) InsertContent :=
  match j with
  | .obj o =>
    let issues := (insertContentFields.map (zcheck o)).flatten
    if issues.isEmpty then .ok (insertContentOf o) else .error issues
  | _ => .error [⟨[], "Expected object"⟩]

/-- The typed output of a successful `insertUpcomingContentSchema.parse`:
`releaseDate` holds the transformed value `new Date(string)`, where
`none` is `Invalid Date` — the transform accepted the string anyway. -/
structure InsertUpcoming where
  title : String
  type : String
  genres : List String
  episodes : Option Int
  releaseDate : Option Int
  description : String
  thumbnailUrl : Option String
  trailerUrl : Option String
  sectionOrder : Option Int
deriving DecidableEq, Repr

/-- Builds the `InsertUpcoming` value of a successful parse. -/
def insertUpcomingOf (o : List (String × JsonVal)) : InsertUpcoming :=
  { title := getStrD o "title"
    type := getStrD o "type"
    genres := getStrArrD o "genres"
    episodes := getIntOpt o "episodes"
    releaseDate := match lookupField o "releaseDate" with
      | some (.str s) => jsDateParse s
      | _ => none
    description := getStrD o "description"
    thumbnailUrl := getStrOpt o "thumbnailUrl"
    trailerUrl := getStrOpt o "trailerUrl"
    sectionOrder := getIntOpt o "sectionOrder" }

/-- `insertUpcomingContentSchema.parse(body)`. -/
def insertUpcomingParse (j : JsonVal) : Except (List Issue) InsertUpcoming :=
  match j with
  | .obj o =>
    let issues := (insertUpcomingFields.map (zcheck o)).flatten
    if issues.isEmpty then .ok (insertUpcomingOf o) else .error issues
  | _ => .error [⟨[], "Expected object"⟩]

/-- Patch field for a nullable integer column: absent / explicit `null`
/ supplied value. -/
def getNullIntPatch (o : List (String × JsonVal)) (k : String) : Option (Option Int) :=
  match lookupField o k with
  | none => none
  | some .null => some none
  | some (.num n) => some (some n)
  | some _ => none

/-- Patch field for a nullable string column. -/
def getNullStrPatch (o : List (String × JsonVal)) (k : String) : Option (Option String) :=
  match lookupField o k with
  | none => none
  | some .null => some none
  | some (.str s) => some (some s)
  | some _ => none

/-- Builds the `UpcomingPatch` of a successful
`insertUpcomingContentSchema.partial().parse`. -/
def upcomingPatchOf (o : List (String × JsonVal)) : UpcomingPatch :=
  { title := getStrOpt o "title"
    type := getStrOpt o "type"
    genres := getStrArrOpt o "genres"
    episodes := getNullIntPatch o "episodes"
    releaseDate := match lookupField o "releaseDate" with
      | some (.str s) => some (jsDateParse s)
      | _ => none
    description := getStrOpt o "description"
    thumbnailUrl := getNullStrPatch o "thumbnailUrl"
    trailerUrl := getNullStrPatch o "trailerUrl"
    sectionOrder := getNullIntPatch o "sectionOrder" }

/-- `insertUpcomingContentSchema.partial().parse(body)`. -/
def upcomingPatchParse (j : JsonVal) : Except (List Issue) UpcomingPatch :=
  match j with
  | .obj o =>
    let issues := (insertUpcomingFields.map (zcheckOpt o)).flatten
    if issues.isEmpty then .ok (upcomingPatchOf o) else .error issues
  | _ => .error [⟨[], "Expected object"⟩]

/-- The typed output of a successful `insertAnalyticsSchema.parse`. -/
def insertAnalyticsOf (o : List (String × JsonVal)) : InsertAnalytics :=
  { contentId := getIntOpt o "contentId"
    eventType := getStrD o "eventType"
    userId := getIntOpt o "userId"
    metadata := getJsonOpt o "metadata" }

/-- `insertAnalyticsSchema.parse(body)`. -/
def insertAnalyticsParse (j : JsonVal) : Except (List Issue) InsertAnalytics :=
  match j with
  | .obj o =>
    let issues := (insertAnalyticsFields.map (zcheck o)).flatten
    if issues.isEmpty then .ok (insertAnalyticsOf o) else .error issues
  | _ => .error [⟨[], "Expected object"⟩]

/-! ### Route layer -/

/-- An HTTP response of the API: 200 bodies by shape, 400 with the
structured `details`, 404 and 500 with their message. -/
inductive Resp where
  | okContent (c : Content)
  | okContentList (cs : List Content)
  | okUpcoming (u : UpcomingContent)
  | okEvent (e : AnalyticsEvent)
  | okAnalytics (a : AnalyticsAggregate)
  | okSuccess
  | badRequest (error : String) (details : List Issue)
  | notFound (error : String)
  | serverError (error : String)

/-- Is this a 400 validation-error response? -/
def isBadRequest : Resp → Bool
  | .badRequest _ _ => true
  | _ => false

/-- The outcome of the `storage.getContentById` call as the route
handler observes it: for a numeric identifier, the `SELECT … WHERE
id = i` of `getContentById`.  Modelled from the spec for the store
itself (no code under src/): binding the `NaN` identifier (`none`) to
the integer `id` column is rejected by the store, and the raised error
propagates as the opaque data-layer error of §4.2 — the same failure
semantics this file applies to an invalid time value bound to the
`releaseDate` timestamp column in `updateUpcomingContent`. -/
def getContentByIdResult (db : DB) (i : Option Int) : Except String (Option Content) :=
  match i with
  | none => .error "invalid input for type integer"
  | some n => .ok (getContentById db (some n))

/-- `GET /api/content/:id`: `parseInt` the path parameter, call
`storage.getContentById` with the result (the handler always performs
this call, whatever `parseInt` produced); a raised store error is
caught and answered 500, an `undefined` result 404, a row 200.  The
first component records the identifier argument handed to the storage
call. -/
def getContentRoute (db : DB) (idStr : String) : Option Int × Resp :=
  let i := jsParseInt idStr
  (i, match getContentByIdResult db i with
      | .error _ => .serverError "Failed to fetch content"
      | .ok none => .notFound "Content not found"
      | .ok (some c) => .okContent c)

/-- `POST /api/content`: validate the body against
`insertContentSchema`; `ZodError` → 400 with details, otherwise create
and answer 200 with the stored row. -/
def postContentRoute (db : DB) (body : JsonVal) (now : Int) : DB × Resp :=
  match insertContentParse body with
  | .error issues => (db, .badRequest "Invalid data" issues)
  | .ok ins =>
    let (db2, row) := createContent db ins now
    (db2, .okContent row)

/-- `DELETE /api/content/:id`: 200 `{success:true}` when a row was
removed, 404 otherwise. -/
def deleteContentRoute (db : DB) (idStr : String) : DB × Resp :=
  let r := deleteContent db (jsParseInt idStr)
  (r.1, if r.2 then .okSuccess else .notFound "Content not found")

/-- `createUpcomingContent`:
`insert(upcomingContent).values(data).returning()`.  The values object
arrives here unvalidated — the POST handler does not use the zod
schema.  Modelled from the spec: the store itself (no code under src/)
enforces the column constraints — a missing or wrongly typed `notNull`
column, or an invalid time value for `releaseDate`, raises the opaque
data-layer error of §4.2, which the handler surfaces as a 500. -/
def createUpcomingContent (db : DB) (o : List (String × JsonVal)) (rd : Option Int)
    (now : Int) : Except String (DB × UpcomingContent) :=
  match rd with
  | none => .error "invalid input for type timestamp"
  | some t =>
    match lookupField o "title", lookupField o "type",
        lookupField o "genres", lookupField o "description" with
    | some (.str ti), some (.str ty), some (.arr gs), some (.str de) =>
      if gs.all isStrVal then
        let row : UpcomingContent :=
          { id := db.upcomingSeq
            title := ti
            type := ty
            genres := gs.filterMap strVal
            episodes := getIntOpt o "episodes"
            releaseDate := t
            description := de
            thumbnailUrl := getStrOpt o "thumbnailUrl"
            trailerUrl := getStrOpt o "trailerUrl"
            sectionOrder := match lookupField o "sectionOrder" with
              | none => some 0
              | some (.num n) => some n
              | _ => none
            createdAt := now }
        .ok ({ db with upcoming := db.upcoming ++ [row], upcomingSeq := db.upcomingSeq + 1 },
             row)
      else .error "malformed array literal"
    | _, _, _, _ => .error "not-null constraint violation"

/-- `POST /api/upcoming-content`: no schema validation — the handler
builds `{ ...req.body, releaseDate: new Date(req.body.releaseDate) }`
and calls the storage insert; its only failure answer is the 500, there
is no 400 branch at all. -/
def postUpcomingRoute (db : DB) (body : JsonVal) (now : Int) : DB × Resp :=
  match body with
  | .obj o =>
    match createUpcomingContent db o (jsNewDate (lookupField o "releaseDate")) now with
    | .error _ => (db, .serverError "Failed to create upcoming content")
    | .ok (db2, row) => (db2, .okUpcoming row)
  | _ => (db, .serverError "Failed to create upcoming content")

/-- `PUT /api/upcoming-content/:id`: validate the body against
`insertUpcomingContentSchema.partial()` (`ZodError` → 400), call the
storage update, 404 when no row matched, 500 when the store raised. -/
def putUpcomingRoute (db : DB) (idStr : String) (body : JsonVal) : DB × Resp :=
  match upcomingPatchParse body with
  | .error issues => (db, .badRequest "Invalid data" issues)
  | .ok p =>
    match updateUpcomingContent db (jsParseInt idStr) p with
    | .error _ => (db, .serverError "Failed to update upcoming content")
    | .ok (db2, none) => (db2, .notFound "Upcoming content not found")
    | .ok (db2, some u) => (db2, .okUpcoming u)

/-- `POST /api/analytics`: validate against `insertAnalyticsSchema`,
400 with details on `ZodError`, otherwise create the event. -/
def postAnalyticsRoute (db : DB) (body : JsonVal) (now : Int) : DB × Resp :=
  match insertAnalyticsParse body with
  | .error issues => (db, .badRequest "Invalid data" issues)
  | .ok e =>
    let r := createAnalyticsEvent db e now
    (r.1, .okEvent r.2)

/-! ### Client upload form (pre-submission checks) -/

/-- The pre-submission check in `ContentUploadForm.handleSubmit`: the
form refuses to submit (shows a toast and returns) when the genre list
is empty, or when the type is `tv_show` and `episodes` is `null` or
non-positive (`!formData.episodes || formData.episodes <= 0`); it
submits otherwise. -/
def uploadFormSubmits (genres : List String) (ty : String) (episodes : Option Int) : Bool :=
  if genres.length == 0 then false
  else if ty == "tv_show" &&
      (match episodes with
       | none => true
       | some e => decide (e ≤ 0)) then false
  else true

/-! ### Column-name inventories (for the schema-shape claim) -/

/-- Column names of the `content` pgTable, in declaration order. -/
def contentColumns : List String :=
  ["id", "title", "type", "genres", "duration", "rating", "status", "views",
   "description", "thumbnailUrl", "videoUrl", "trailerUrl", "releaseYear",
   "director", "writer", "cast", "tags", "episodes", "createdAt", "updatedAt"]

/-- Column names of the `analytics` pgTable, in declaration order. -/
def analyticsColumns : List String :=
  ["id", "contentId", "eventType", "userId", "timestamp", "metadata"]

/-- The server-assigned `content` columns omitted from
`insertContentSchema`. -/
def contentOmitted : List String :=
  ["id", "createdAt", "updatedAt", "views"]

/-- The server-assigned `analytics` columns omitted from
`insertAnalyticsSchema`. -/
def analyticsOmitted : List String :=
  ["id", "timestamp"]

/-! ### Helper lemmas -/

/-- `createdDescLe` is transitive. -/
theorem createdDescLe_trans (a b c : Content) (h1 : createdDescLe a b = true)
    (h2 : createdDescLe b c = true) : createdDescLe a c = true := by
  simp only [createdDescLe, decide_eq_true_eq] at *
  omega

/-- `createdDescLe` is total. -/
theorem createdDescLe_total (a b : Content) :
    (createdDescLe a b || createdDescLe b a) = true := by
  simp only [createdDescLe, Bool.or_eq_true, decide_eq_true_eq]
  omega

/-- `viewsDescLe` is transitive. -/
theorem viewsDescLe_trans (a b c : Content) (h1 : viewsDescLe a b = true)
    (h2 : viewsDescLe b c = true) : viewsDescLe a c = true := by
  unfold viewsDescLe at *
  cases ha : a.views <;> cases hb : b.views <;> cases hc : c.views <;>
    (simp_all; try omega)

/-- `viewsDescLe` is total. -/
theorem viewsDescLe_total (a b : Content) :
    (viewsDescLe a b || viewsDescLe b a) = true := by
  unfold viewsDescLe
  cases a.views <;> cases b.views <;> (simp; try omega)

/-- `tsDescLe` is transitive. -/
theorem tsDescLe_trans (a b c : AnalyticsEvent) (h1 : tsDescLe a b = true)
    (h2 : tsDescLe b c = true) : tsDescLe a c = true := by
  simp only [tsDescLe, decide_eq_true_eq] at *
  omega

/-- `tsDescLe` is total. -/
theorem tsDescLe_total (a b : AnalyticsEvent) :
    (tsDescLe a b || tsDescLe b a) = true := by
  simp only [tsDescLe, Bool.or_eq_true, decide_eq_true_eq]
  omega

/-- The first row returned by an `UPDATE … WHERE p RETURNING *` equals
the first `p`-row of the old table, transformed — provided the
transformation does not change `p`-membership. -/
theorem update_filter_head {α : Type} (p : α → Bool) (f : α → α)
    (hf : ∀ a, p (f a) = p a) (l : List α) :
    ((l.map (fun a => if p a then f a else a)).filter p).head? =
      (l.find? p).map f := by
  induction l with
  | nil => rfl
  | cons a t ih =>
    by_cases h : p a = true
    · simp [List.filter_cons, List.find?_cons, h, hf]
    · simp [List.filter_cons, List.find?_cons, h, hf, ih]

/-! ### Sample data for witnesses -/

/-- A sample stored content row (id 3, published). -/
def cSample : Content :=
  { id := 3, title := "Sample", type := "movie", genres := ["Drama"],
    duration := none, rating := "PG", status := "published", views := some 4,
    description := none, thumbnailUrl := none, videoUrl := none,
    trailerUrl := none, releaseYear := none, director := none, writer := none,
    cast := none, tags := none, episodes := none, createdAt := 10, updatedAt := 10 }

/-- A sample stored upcoming-content row (id 5). -/
def uSample : UpcomingContent :=
  { id := 5, title := "Soon", type := "movie", genres := ["Drama"],
    episodes := none, releaseDate := 20250101, description := "soon",
    thumbnailUrl := none, trailerUrl := none, sectionOrder := some 0,
    createdAt := 10 }

/-- A sample store state holding `cSample` and `uSample`. -/
def dbSample : DB :=
  { contents := [cSample], upcoming := [uSample], events := [],
    contentSeq := 4, upcomingSeq := 6, analyticsSeq := 1 }

/-! ### Claims -/

/-- Claim C2: for every store state, `getAnalytics` returns an
aggregate in which `totalViews` is the count of stored events of kind
`view`, `totalContent` is the count of content rows, `popularContent`
is sorted descending by view counter with at most 10 rows, and
`recentViews` holds only `view`-kind events, sorted descending by
timestamp, with at most 50 entries. -/
theorem claim_C2 (db : DB) :
    (getAnalytics db).totalViews = db.events.countP (fun e => e.eventType == "view") ∧
    (getAnalytics db).totalContent = db.contents.length ∧
    (getAnalytics db).popularContent.length ≤ 10 ∧
    (getAnalytics db).popularContent.Pairwise
      (fun a b => ∀ x y, a.views = some x → b.views = some y → y ≤ x) ∧
    (∀ e ∈ (getAnalytics db).recentViews, e.eventType = "view") ∧
    (getAnalytics db).recentViews.Pairwise (fun a b => b.timestamp ≤ a.timestamp) ∧
    (getAnalytics db).recentViews.length ≤ 50 := by
  refine ⟨rfl, rfl, List.length_take_le _ _, ?_, ?_, ?_, List.length_take_le _ _⟩
  · have hs := List.sorted_mergeSort viewsDescLe_trans viewsDescLe_total db.contents
    refine (List.Pairwise.sublist (List.take_sublist _ _) hs).imp ?_
    intro a b hab x y hx hy
    simpa [viewsDescLe, hx, hy] using hab
  · intro e he
    have h1 : e ∈ (db.events.filter (fun e => e.eventType == "view")).mergeSort tsDescLe :=
      (List.take_sublist _ _).mem he
    have h2 := (List.mergeSort_perm
      (db.events.filter (fun e => e.eventType == "view")) tsDescLe).mem_iff.mp h1
    simpa using (List.mem_filter.mp h2).2
  · have hs := List.sorted_mergeSort tsDescLe_trans tsDescLe_total
      (db.events.filter (fun e => e.eventType == "view"))
    exact (List.Pairwise.sublist (List.take_sublist _ _) hs).imp
      (by intro a b h; simpa [tsDescLe] using h)

/-- Claim C6: for every store state, `getPublished` returns exactly the
content rows whose status is `published` (as a multiset), ordered
newest-first by creation time, and never a row of any other status. -/
theorem claim_C6 (db : DB) :
    (∀ c ∈ getPublishedContent db, c.status = "published") ∧
    (getPublishedContent db).Perm
      (db.contents.filter (fun c => c.status == "published")) ∧
    (getPublishedContent db).Pairwise (fun a b => b.createdAt ≤ a.createdAt) := by
  refine ⟨?_, List.mergeSort_perm _ _, ?_⟩
  · intro c hc
    have h1 := (List.mergeSort_perm
      (db.contents.filter (fun c => c.status == "published")) createdDescLe).mem_iff.mp hc
    simpa using (List.mem_filter.mp h1).2
  · exact (List.sorted_mergeSort createdDescLe_trans createdDescLe_total _).imp
      (by intro a b h; simpa [createdDescLe] using h)

/-- Claim C3: `updateContent` modifies only the supplied fields, always
refreshes `updatedAt` (even for the empty patch), returns the updated
record or the absence marker when no row matched; the id, the view
counter and `createdAt` are untouched; `updateUpcomingContent`
refreshes no timestamp. -/
theorem claim_C3 (db : DB) (i : Option Int) (p : ContentPatch) (now : Int) (c : Content)
    (u : UpcomingContent) (q : UpcomingPatch) :
    (updateContent db i p now).2 = (getContentById db i).map (applyPatch now p) ∧
    (applyPatch now p c).updatedAt = now ∧
    applyPatch now ({} : ContentPatch) c = { c with updatedAt := now } ∧
    (p.title = none → (applyPatch now p c).title = c.title) ∧
    (p.type = none → (applyPatch now p c).type = c.type) ∧
    (p.genres = none → (applyPatch now p c).genres = c.genres) ∧
    (p.duration = none → (applyPatch now p c).duration = c.duration) ∧
    (p.rating = none → (applyPatch now p c).rating = c.rating) ∧
    (p.status = none → (applyPatch now p c).status = c.status) ∧
    (p.description = none → (applyPatch now p c).description = c.description) ∧
    (p.thumbnailUrl = none → (applyPatch now p c).thumbnailUrl = c.thumbnailUrl) ∧
    (p.videoUrl = none → (applyPatch now p c).videoUrl = c.videoUrl) ∧
    (p.trailerUrl = none → (applyPatch now p c).trailerUrl = c.trailerUrl) ∧
    (p.releaseYear = none → (applyPatch now p c).releaseYear = c.releaseYear) ∧
    (p.director = none → (applyPatch now p c).director = c.director) ∧
    (p.writer = none → (applyPatch now p c).writer = c.writer) ∧
    (p.cast = none → (applyPatch now p c).cast = c.cast) ∧
    (p.tags = none → (applyPatch now p c).tags = c.tags) ∧
    (p.episodes = none → (applyPatch now p c).episodes = c.episodes) ∧
    (applyPatch now p c).id = c.id ∧
    (applyPatch now p c).views = c.views ∧
    (applyPatch now p c).createdAt = c.createdAt ∧
    (applyUpcomingPatch q u).createdAt = u.createdAt ∧
    applyUpcomingPatch ({} : UpcomingPatch) u = u := by
  refine ⟨update_filter_head (fun c : Content => idMatches i c.id) (applyPatch now p)
      (fun a => rfl) db.contents,
    rfl, rfl, ?_, ?_, ?_, ?_, ?_, ?_, ?_, ?_, ?_, ?_, ?_, ?_, ?_, ?_, ?_, ?_,
    rfl, rfl, rfl, rfl, rfl⟩
  all_goals intro h
  all_goals simp [applyPatch, h]

/-- Witness for claim C3 at a concrete store, row and the empty patch:
every frame hypothesis (`p.f = none`) is discharged, the row is found
and updated, the timestamp refreshed while the business fields stay. -/
theorem claim_C3_witness :
    (updateContent dbSample (some 3) {} 99).2 = some (applyPatch 99 {} cSample) ∧
    (applyPatch 99 ({} : ContentPatch) cSample).updatedAt = 99 ∧
    (applyPatch 99 ({} : ContentPatch) cSample).title = cSample.title ∧
    (applyPatch 99 ({} : ContentPatch) cSample).type = cSample.type ∧
    (applyPatch 99 ({} : ContentPatch) cSample).genres = cSample.genres ∧
    (applyPatch 99 ({} : ContentPatch) cSample).duration = cSample.duration ∧
    (applyPatch 99 ({} : ContentPatch) cSample).rating = cSample.rating ∧
    (applyPatch 99 ({} : ContentPatch) cSample).status = cSample.status ∧
    (applyPatch 99 ({} : ContentPatch) cSample).description = cSample.description ∧
    (applyPatch 99 ({} : ContentPatch) cSample).thumbnailUrl = cSample.thumbnailUrl ∧
    (applyPatch 99 ({} : ContentPatch) cSample).videoUrl = cSample.videoUrl ∧
    (applyPatch 99 ({} : ContentPatch) cSample).trailerUrl = cSample.trailerUrl ∧
    (applyPatch 99 ({} : ContentPatch) cSample).releaseYear = cSample.releaseYear ∧
    (applyPatch 99 ({} : ContentPatch) cSample).director = cSample.director ∧
    (applyPatch 99 ({} : ContentPatch) cSample).writer = cSample.writer ∧
    (applyPatch 99 ({} : ContentPatch) cSample).cast = cSample.cast ∧
    (applyPatch 99 ({} : ContentPatch) cSample).tags = cSample.tags ∧
    (applyPatch 99 ({} : ContentPatch) cSample).episodes = cSample.episodes ∧
    applyUpcomingPatch ({} : UpcomingPatch) uSample = uSample := by
  obtain ⟨h1, h2, h3, h4, h5, h6, h7, h8, h9, h10, h11, h12, h13, h14, h15, h16,
      h17, h18, h19, h20, h21, h22, h23, h24⟩ :=
    claim_C3 dbSample (some 3) {} 99 cSample uSample {}
  refine ⟨?_, h2, h4 rfl, h5 rfl, h6 rfl, h7 rfl, h8 rfl, h9 rfl, h10 rfl,
    h11 rfl, h12 rfl, h13 rfl, h14 rfl, h15 rfl, h16 rfl, h17 rfl, h18 rfl,
    h19 rfl, h24⟩
  rw [h1]
  rfl

/-- Claim C4: `deleteContent` returns `true` exactly when a row
matched (`false` is not-found, not an error); at the route layer the
response is always `{success:true}` or 404 — success exactly when a row
existed — and repeating the same DELETE always answers 404. -/
theorem claim_C4 (db : DB) (i : Option Int) (idStr : String) :
    ((deleteContent db i).2 = true ↔ ∃ c ∈ db.contents, idMatches i c.id = true) ∧
    ((deleteContentRoute db idStr).2 = .okSuccess ∨
      (deleteContentRoute db idStr).2 = .notFound "Content not found") ∧
    ((deleteContentRoute db idStr).2 = .okSuccess ↔
      ∃ c ∈ db.contents, idMatches (jsParseInt idStr) c.id = true) ∧
    (deleteContentRoute (deleteContentRoute db idStr).1 idStr).2 =
      .notFound "Content not found" := by
  have hdel : ∀ (d : DB) (j : Option Int),
      (deleteContent d j).2 = true ↔ ∃ c ∈ d.contents, idMatches j c.id = true := by
    intro d j
    simp only [deleteContent, decide_eq_true_eq]
    rw [List.length_filter_lt_length_iff_exists]
    simp
  refine ⟨hdel db i, ?_, ?_, ?_⟩
  · by_cases h : (deleteContent db (jsParseInt idStr)).2 = true
    · left; simp [deleteContentRoute, h]
    · right
      simp only [Bool.not_eq_true] at h
      simp [deleteContentRoute, h]
  · by_cases h : (deleteContent db (jsParseInt idStr)).2 = true
    · simp only [deleteContentRoute, h, if_true]
      simpa using (hdel db (jsParseInt idStr)).mp h
    · have h' : (deleteContent db (jsParseInt idStr)).2 = false := by
        simpa using h
      simp only [deleteContentRoute, h', Bool.false_eq_true, if_false]
      constructor
      · intro hc; cases hc
      · intro hex
        exact absurd ((hdel db (jsParseInt idStr)).mpr hex) h
  · have hfix : ((deleteContentRoute db idStr).1).contents.filter
        (fun c => !(idMatches (jsParseInt idStr) c.id)) =
        ((deleteContentRoute db idStr).1).contents := by
      show (db.contents.filter (fun c => !(idMatches (jsParseInt idStr) c.id))).filter
          (fun c => !(idMatches (jsParseInt idStr) c.id)) =
        db.contents.filter (fun c => !(idMatches (jsParseInt idStr) c.id))
      rw [List.filter_filter]
      simp
    show (if (deleteContent (deleteContentRoute db idStr).1 (jsParseInt idStr)).2
        then Resp.okSuccess else Resp.notFound "Content not found") =
      Resp.notFound "Content not found"
    have : (deleteContent (deleteContentRoute db idStr).1 (jsParseInt idStr)).2 = false := by
      simp only [deleteContent, hfix]
      simp
    rw [this]
    simp

/-! ### Concrete request bodies used by the remaining claims -/

/-- The example POST body `{title:"X", type:"movie", genres:["Drama"], rating:"PG"}`. -/
def c5Body : JsonVal :=
  .obj [("title", .str "X"), ("type", .str "movie"),
        ("genres", .arr [.str "Drama"]), ("rating", .str "PG")]

/-- The same POST body without the `genres` field. -/
def c5BodyNoGenres : JsonVal :=
  .obj [("title", .str "X"), ("type", .str "movie"), ("rating", .str "PG")]

/-- The insert value `c5Body` parses to. -/
def insC5 : InsertContent :=
  { title := "X", type := "movie", genres := ["Drama"], duration := none,
    rating := "PG", status := none, description := none, thumbnailUrl := none,
    videoUrl := none, trailerUrl := none, releaseYear := none, director := none,
    writer := none, cast := none, tags := none, episodes := none }

/-- Claim C5: POST `/api/content` with the example body answers 200
with a row carrying the server-assigned id, `views = 0` and
`status = "draft"`; the same body without `genres` answers 400 with a
details array naming the `genres` field. -/
theorem claim_C5 (db : DB) (now : Int) :
    (∃ row, (postContentRoute db c5Body now).2 = .okContent row ∧
      row.id = db.contentSeq ∧ row.views = some 0 ∧ row.status = "draft") ∧
    (∃ details, (postContentRoute db c5BodyNoGenres now).2 =
        .badRequest "Invalid data" details ∧
      ∃ iss ∈ details, iss.path = ["genres"]) := by
  constructor
  · exact ⟨contentRowOf db.contentSeq insC5 now, rfl, rfl, rfl, rfl⟩
  · refine ⟨[⟨["genres"], "Required"⟩], rfl, ⟨["genres"], "Required"⟩, ?_, rfl⟩
    simp

/-- Claim C7 counterexample: at the request `GET /api/content/abc`
against a store holding row 3, `parseInt` yields `NaN` (`none`), the
handler still hands that identifier to `storage.getContentById` (first
component of the route model), the store's rejection of the `NaN`
binding surfaces as the catch block's 500 — no invalid-input (400)
treatment occurs anywhere. -/
theorem counterexample_C7 :
    jsParseInt "abc" = none ∧
    (getContentRoute dbSample "abc").1 = none ∧
    (getContentRoute dbSample "abc").2 = .serverError "Failed to fetch content" ∧
    isBadRequest (getContentRoute dbSample "abc").2 = false :=
  ⟨rfl, rfl, rfl, rfl⟩

/-- Claim C7 as amended: for every request whose path identifier is not
numeric, the route layer passes the `NaN` identifier through to the
data-access call; the store rejects binding `NaN` to the integer `id`
column and the raised error surfaces as the handler's 500 — the request
is never rejected as invalid input. -/
theorem claim_C7 (db : DB) (s : String) (h : jsParseInt s = none) :
    (getContentRoute db s).1 = none ∧
    (getContentRoute db s).2 = .serverError "Failed to fetch content" ∧
    isBadRequest (getContentRoute db s).2 = false := by
  refine ⟨?_, ?_, ?_⟩ <;> simp [getContentRoute, getContentByIdResult, h, isBadRequest]

/-- Witness for the amended claim C7 at the identifier string `"xyz"`. -/
theorem claim_C7_witness :
    (getContentRoute dbSample "xyz").1 = none ∧
    (getContentRoute dbSample "xyz").2 = .serverError "Failed to fetch content" ∧
    isBadRequest (getContentRoute dbSample "xyz").2 = false :=
  claim_C7 dbSample "xyz" rfl

/-- A well-formed upcoming-content POST body except that its
`releaseDate` string is not parseable as a date. -/
def c1Body : JsonVal :=
  .obj [("title", .str "Soon"), ("type", .str "movie"),
        ("genres", .arr [.str "Drama"]), ("releaseDate", .str "not-a-date"),
        ("description", .str "d")]

/-- A PUT body supplying only the unparseable `releaseDate`. -/
def c1PutBody : JsonVal := .obj [("releaseDate", .str "not-a-date")]

/-- Claim C1 (code bug, evaluated at the failing input): the
`releaseDate` coercion `z.string().transform((str) => new Date(str))`
never fails — on any string, parseable or not, the partial schema
parse succeeds, carrying `Invalid Date` when unparseable; at the
failing input `"not-a-date"` the insert-schema parse also succeeds
with an invalid time value, POST `/api/upcoming-content` answers 500
(it performs no schema validation at all), and PUT answers 500 — never
the claimed 400 validation error. -/
theorem claim_C1 (db : DB) (now : Int) :
    jsDateParse "not-a-date" = none ∧
    (∀ s : String, upcomingPatchParse (.obj [("releaseDate", .str s)]) =
      .ok { releaseDate := some (jsDateParse s) }) ∧
    (∃ u, insertUpcomingParse c1Body = .ok u ∧ u.releaseDate = none) ∧
    (postUpcomingRoute db c1Body now).2 =
      .serverError "Failed to create upcoming content" ∧
    isBadRequest (postUpcomingRoute db c1Body now).2 = false ∧
    (putUpcomingRoute db "7" c1PutBody).2 =
      .serverError "Failed to update upcoming content" ∧
    isBadRequest (putUpcomingRoute db "7" c1PutBody).2 = false := by
  refine ⟨rfl, ?_, ⟨insertUpcomingOf
    [("title", .str "Soon"), ("type", .str "movie"),
     ("genres", .arr [.str "Drama"]), ("releaseDate", .str "not-a-date"),
     ("description", .str "d")], rfl, rfl⟩, rfl, rfl, rfl, rfl⟩
  intro s
  rfl

/-- Claim C8: each insert schema covers exactly the table's columns
minus the server-assigned ones, and whatever the client payload
contained, a created row takes `id`, `views`, `createdAt`, `updatedAt`
(content) and `id`, `timestamp` (analytics) from the server, never
from the payload. -/
theorem claim_C8 :
    insertContentFields.map zfieldName =
      contentColumns.filter (fun k => !(contentOmitted.contains k)) ∧
    insertAnalyticsFields.map zfieldName =
      analyticsColumns.filter (fun k => !(analyticsOmitted.contains k)) ∧
    (∀ (db : DB) (body : JsonVal) (now : Int) (ins : InsertContent),
      insertContentParse body = .ok ins →
      (postContentRoute db body now).2 =
        .okContent (contentRowOf db.contentSeq ins now) ∧
      (contentRowOf db.contentSeq ins now).id = db.contentSeq ∧
      (contentRowOf db.contentSeq ins now).views = some 0 ∧
      (contentRowOf db.contentSeq ins now).createdAt = now ∧
      (contentRowOf db.contentSeq ins now).updatedAt = now) ∧
    (∀ (db : DB) (body : JsonVal) (now : Int) (e : InsertAnalytics),
      insertAnalyticsParse body = .ok e →
      (postAnalyticsRoute db body now).2 = .okEvent (createAnalyticsEvent db e now).2 ∧
      (createAnalyticsEvent db e now).2.id = db.analyticsSeq ∧
      (createAnalyticsEvent db e now).2.timestamp = now) := by
  refine ⟨by decide, by decide, ?_, ?_⟩
  · intro db body now ins h
    exact ⟨by simp [postContentRoute, h, createContent], rfl, rfl, rfl, rfl⟩
  · intro db body now e h
    exact ⟨by simp [postAnalyticsRoute, h], rfl, rfl⟩

/-- A content POST body that tries to set the server-assigned fields
`id`, `views` and `createdAt`. -/
def c8Body : JsonVal :=
  .obj [("id", .num 99), ("views", .num 7), ("createdAt", .num 1),
        ("title", .str "W"), ("type", .str "movie"),
        ("genres", .arr [.str "Drama"]), ("rating", .str "R")]

/-- The insert value `c8Body` parses to: the server-assigned keys are
stripped. -/
def c8Ins : InsertContent :=
  { title := "W", type := "movie", genres := ["Drama"], duration := none,
    rating := "R", status := none, description := none, thumbnailUrl := none,
    videoUrl := none, trailerUrl := none, releaseYear := none, director := none,
    writer := none, cast := none, tags := none, episodes := none }

/-- An analytics POST body that tries to set `id` and `timestamp`. -/
def c8EvBody : JsonVal :=
  .obj [("id", .num 42), ("timestamp", .num 5), ("eventType", .str "view")]

/-- The insert value `c8EvBody` parses to. -/
def c8Ev : InsertAnalytics :=
  { contentId := none, eventType := "view", userId := none, metadata := none }

/-- Witness for claim C8: a payload carrying `id:99`, `views:7`,
`createdAt:1` still validates, and the stored row gets `id` from the
sequence (4), `views` 0 and both timestamps from the server clock;
likewise an analytics payload carrying `id:42`, `timestamp:5`. -/
theorem claim_C8_witness :
    (postContentRoute dbSample c8Body 77).2 =
      .okContent (contentRowOf dbSample.contentSeq c8Ins 77) ∧
    (contentRowOf dbSample.contentSeq c8Ins 77).id = 4 ∧
    (contentRowOf dbSample.contentSeq c8Ins 77).views = some 0 ∧
    (contentRowOf dbSample.contentSeq c8Ins 77).createdAt = 77 ∧
    (postAnalyticsRoute dbSample c8EvBody 77).2 =
      .okEvent (createAnalyticsEvent dbSample c8Ev 77).2 ∧
    (createAnalyticsEvent dbSample c8Ev 77).2.id = 1 ∧
    (createAnalyticsEvent dbSample c8Ev 77).2.timestamp = 77 := by
  have h1 := claim_C8.2.2.1 dbSample c8Body 77 c8Ins rfl
  have h2 := claim_C8.2.2.2 dbSample c8EvBody 77 c8Ev rfl
  exact ⟨h1.1, h1.2.1, h1.2.2.1, h1.2.2.2.1, h2.1, h2.2.1, h2.2.2⟩

/-- A content POST body whose `genres` list is empty. -/
def c9BodyEmptyGenres : JsonVal :=
  .obj [("title", .str "G"), ("type", .str "movie"), ("genres", .arr []),
        ("rating", .str "PG")]

/-- A tv-show content POST body with no `episodes` value. -/
def c9BodyTv : JsonVal :=
  .obj [("title", .str "T"), ("type", .str "tv_show"),
        ("genres", .arr [.str "Drama"]), ("rating", .str "PG")]

/-- Claim C9: "at least one genre" and "episodes > 0 for tv shows" are
enforced only by the client upload form — which refuses to submit such
data — while the server-side schema accepts the empty genre list and
the episode-less tv show and the record is persisted. -/
theorem claim_C9 (db : DB) (now : Int) :
    uploadFormSubmits [] "movie" (some 5) = false ∧
    uploadFormSubmits ["Drama"] "tv_show" none = false ∧
    uploadFormSubmits ["Drama"] "tv_show" (some 0) = false ∧
    uploadFormSubmits ["Drama"] "tv_show" (some 8) = true ∧
    (∃ ins, insertContentParse c9BodyEmptyGenres = .ok ins ∧ ins.genres = []) ∧
    (∃ row, (postContentRoute db c9BodyEmptyGenres now).2 = .okContent row ∧
      row.genres = [] ∧
      row ∈ ((postContentRoute db c9BodyEmptyGenres now).1).contents) ∧
    (∃ ins, insertContentParse c9BodyTv = .ok ins ∧
      ins.type = "tv_show" ∧ ins.episodes = none) ∧
    (∃ row, (postContentRoute db c9BodyTv now).2 = .okContent row ∧
      row.type = "tv_show" ∧ row.episodes = none ∧
      row ∈ ((postContentRoute db c9BodyTv now).1).contents) := by
  refine ⟨rfl, rfl, rfl, rfl,
    ⟨insertContentOf [("title", .str "G"), ("type", .str "movie"),
       ("genres", .arr []), ("rating", .str "PG")], rfl, rfl⟩,
    ⟨contentRowOf db.contentSeq (insertContentOf [("title", .str "G"),
       ("type", .str "movie"), ("genres", .arr []), ("rating", .str "PG")]) now,
      rfl, rfl, ?_⟩,
    ⟨insertContentOf [("title", .str "T"), ("type", .str "tv_show"),
       ("genres", .arr [.str "Drama"]), ("rating", .str "PG")], rfl, rfl, rfl⟩,
    ⟨contentRowOf db.contentSeq (insertContentOf [("title", .str "T"),
       ("type", .str "tv_show"), ("genres", .arr [.str "Drama"]),
       ("rating", .str "PG")]) now, rfl, rfl, rfl, ?_⟩⟩
  · show _ ∈ db.contents ++ [_]
    simp
  · show _ ∈ db.contents ++ [_]
    simp

/-- A content POST body whose `type` is outside `{movie, tv_show}`. -/
def c10BodyType : JsonVal :=
  .obj [("title", .str "A"), ("type", .str "banana"),
        ("genres", .arr [.str "Drama"]), ("rating", .str "PG")]

/-- A content POST body whose `status` is outside `{draft, published}`. -/
def c10BodyStatus : JsonVal :=
  .obj [("title", .str "B"), ("type", .str "movie"),
        ("genres", .arr [.str "Drama"]), ("rating", .str "PG"),
        ("status", .str "archived")]

/-- An analytics POST body whose `eventType` is outside
`{view, play, like, add_to_list}`. -/
def c10BodyEvent : JsonVal := .obj [("eventType", .str "hover")]

/-- Claim C10: the server-side schemas place no enumeration restriction
on the variant fields — a `type` of `"banana"`, a `status` of
`"archived"` and an `eventType` of `"hover"` all validate and are
persisted as supplied. -/
theorem claim_C10 (db : DB) (now : Int) :
    (∃ ins, insertContentParse c10BodyType = .ok ins ∧ ins.type = "banana") ∧
    (∃ row, (postContentRoute db c10BodyType now).2 = .okContent row ∧
      row.type = "banana" ∧
      row ∈ ((postContentRoute db c10BodyType now).1).contents) ∧
    (∃ ins, insertContentParse c10BodyStatus = .ok ins ∧
      ins.status = some "archived") ∧
    (∃ row, (postContentRoute db c10BodyStatus now).2 = .okContent row ∧
      row.status = "archived") ∧
    (∃ e, insertAnalyticsParse c10BodyEvent = .ok e ∧ e.eventType = "hover") ∧
    (∃ ev, (postAnalyticsRoute db c10BodyEvent now).2 = .okEvent ev ∧
      ev.eventType = "hover" ∧
      ev ∈ ((postAnalyticsRoute db c10BodyEvent now).1).events) := by
  refine ⟨⟨insertContentOf [("title", .str "A"), ("type", .str "banana"),
       ("genres", .arr [.str "Drama"]), ("rating", .str "PG")], rfl, rfl⟩,
    ⟨contentRowOf db.contentSeq (insertContentOf [("title", .str "A"),
       ("type", .str "banana"), ("genres", .arr [.str "Drama"]),
       ("rating", .str "PG")]) now, rfl, rfl, ?_⟩,
    ⟨insertContentOf [("title", .str "B"), ("type", .str "movie"),
       ("genres", .arr [.str "Drama"]), ("rating", .str "PG"),
       ("status", .str "archived")], rfl, rfl⟩,
    ⟨contentRowOf db.contentSeq (insertContentOf [("title", .str "B"),
       ("type", .str "movie"), ("genres", .arr [.str "Drama"]),
       ("rating", .str "PG"), ("status", .str "archived")]) now, rfl, rfl⟩,
    ⟨insertAnalyticsOf [("eventType", .str "hover")], rfl, rfl⟩,
    ⟨(createAnalyticsEvent db (insertAnalyticsOf [("eventType", .str "hover")]) now).2,
      rfl, rfl, ?_⟩⟩
  · show _ ∈ db.contents ++ [_]
    simp
  · show _ ∈ db.events ++ [_]
    exact List.mem_append_right _ (List.mem_singleton_self _)

/-- Witness for claim C2 at a concrete store: no events, one content
row. -/
theorem claim_C2_witness :
    (getAnalytics dbSample).totalViews = 0 ∧
    (getAnalytics dbSample).totalContent = 1 ∧
    (getAnalytics dbSample).popularContent.length ≤ 10 := by
  have h := claim_C2 dbSample
  exact ⟨h.1, h.2.1, h.2.2.1⟩

/-- Witness for claim C4: DELETE `/api/content/3` twice against a store
holding row 3 — first `{success:true}`, then 404. -/
theorem claim_C4_witness :
    (deleteContentRoute dbSample "3").2 = .okSuccess ∧
    (deleteContentRoute (deleteContentRoute dbSample "3").1 "3").2 =
      .notFound "Content not found" := by
  have h := claim_C4 dbSample (some 3) "3"
  exact ⟨h.2.2.1.mpr ⟨cSample, by simp [dbSample], by decide⟩, h.2.2.2⟩

/-- Witness for claim C6: the sample published row is returned and its
status is `published`. -/
theorem claim_C6_witness : cSample.status = "published" :=
  (claim_C6 dbSample).1 cSample
    ((List.mergeSort_perm _ createdDescLe).mem_iff.mpr (by decide))
